import Mathlib

/- Shallow embedding of the pywhistle asynchronous API client
   (src/pywhistle/client.py). The underlying HTTP session is modelled as a
   function from a request to the final response it surfaces; every client
   operation returns the Python result (or the propagated exception) together
   with the list of HTTP requests it issued. -/

set_option autoImplicit false

namespace Pywhistle

/-- Python values as they appear in query parameters, request bodies and
parsed JSON responses. PyVal.none is the Python value None, which is also the
parse of JSON null. -/
inductive PyVal where
  | none
  | bool (b : Bool)
  | int (n : Int)
  | str (s : String)
  | list (xs : List PyVal)
  | dict (kvs : List (String × PyVal))
deriving Repr

/-- Python exceptions raised on the client code paths modelled here. The
constructor notInitialized is never produced by the code: it stands for the
distinct not-initialized error described by the specification, so that its
absence can be stated. -/
inductive PyError where
  | typeError (msg : String)
  | keyError (key : String)
  | clientResponseError (status : Nat) (message : String)
  | jsonDecodeError
  | notInitialized
deriving Repr, DecidableEq

/-- Message of the TypeError Python raises when subscripting None (the quotes
of the original message text are omitted). -/
def noneSubscriptMsg : String := "NoneType object is not subscriptable"

/-- Python test v is None. -/
def PyVal.isNone : PyVal → Bool
  | PyVal.none => true
  | _ => false

/-- Python str conversion as used by percent-s formatting: exact on the atoms
a token can hold; composite values are summarized, since no modelled code
path formats them. -/
def pyStr : PyVal → String
  | PyVal.none => "None"
  | PyVal.bool b => if b then "True" else "False"
  | PyVal.int n => toString n
  | PyVal.str s => s
  | PyVal.list _ => "<list>"
  | PyVal.dict _ => "<dict>"

/-- The session configuration dict, with keys proto, remote_host and
endpoint. -/
structure Config where
  proto : String
  remote_host : String
  endpoint : String
deriving Repr, DecidableEq

/-- The constant WHISTLE_CONST of client.py. -/
def WHISTLE_CONST : Config :=
  { proto := "https", remote_host := "app.whistle.com", endpoint := "api" }

/-- An HTTP request as handed to the underlying aiohttp session. -/
structure HttpRequest where
  method : String
  url : String
  headers : List (String × String)
  data : Option (List (String × PyVal))
  params : List (String × PyVal)
deriving Repr

/-- The final HTTP response the session surfaces for a request: status code,
reason phrase, raw body text, and the JSON parse of the body (none when the
body is not valid JSON). -/
structure HttpResponse where
  status : Nat
  reason : String
  rawBody : String
  json : Option PyVal
deriving Repr

/-- The underlying aiohttp session. Transport and redirect handling are its
responsibility, so it is modelled as the map from a request to the final
surfaced response. -/
abbrev Env := HttpRequest → HttpResponse

/-- Translation of Client.url: percent-format of
proto colon-slash-slash host slash endpoint slash resource. -/
def url (config : Config) (resource : String) : String :=
  config.proto ++ "://" ++ config.remote_host ++ "/" ++ config.endpoint ++ "/" ++ resource

/-- The header dict literal of Client.headers. -/
def authHeaders (config : Config) (token : PyVal) : List (String × String) :=
  [("Host", config.remote_host),
   ("Content-Type", "application/json"),
   ("Connection", "keep-alive"),
   ("Accept", "application/vnd.whistle.com.v4+json"),
   ("Accept-Language", "en-us"),
   ("Accept-Encoding", "br, gzip, deflate"),
   ("User-Agent", "Winston/2.5.3 (iPhone; iOS 12.0.1; Build:1276; Scale/2.0)"),
   ("Authorization", "Bearer " ++ pyStr token)]

/-- Translation of Client.headers. Building the dict subscripts the config,
so a None config raises TypeError. -/
def headers (config : Option Config) (token : PyVal) :
    Except PyError (List (String × String)) :=
  match config with
  | Option.none => Except.error (PyError.typeError noneSubscriptMsg)
  | Option.some c => Except.ok (authHeaders c token)

/-- The request Client.request hands to the session, after normalizing
absent headers and params to empty dicts and dropping every param whose
value is None. -/
def builtRequest (cfg : Config) (method resource : String)
    (headers : Option (List (String × String)))
    (data : Option (List (String × PyVal)))
    (params : Option (List (String × PyVal))) : HttpRequest :=
  { method := method
    url := url cfg resource
    headers := headers.getD []
    data := data
    params := (params.getD []).filter (fun kv => !kv.2.isNone) }

/-- Translation of Client.request: normalize headers and params, build the
URL (subscripting a None config raises TypeError before any request is
sent), issue the request, raise ClientResponseError for a status of 400 or
above (the aiohttp raise_for_status check, carrying status and reason
phrase), otherwise return the JSON parse of the body. -/
def request (env : Env) (config : Option Config) (method resource : String)
    (headers : Option (List (String × String)))
    (data : Option (List (String × PyVal)))
    (params : Option (List (String × PyVal))) :
    Except PyError PyVal × List HttpRequest :=
  match config with
  | Option.none => (Except.error (PyError.typeError noneSubscriptMsg), [])
  | Option.some cfg =>
    let req := builtRequest cfg method resource headers data params
    let resp := env req
    (if 400 ≤ resp.status then
        Except.error (PyError.clientResponseError resp.status resp.reason)
      else
        match resp.json with
        | Option.some v => Except.ok v
        | Option.none => Except.error PyError.jsonDecodeError,
      [req])

/-- Translation of Client.get_resource: a GET with the authenticated
headers; the headers are built before the request is issued. -/
def get_resource (env : Env) (config : Option Config) (token : PyVal)
    (resource : String) (params : Option (List (String × PyVal))) :
    Except PyError PyVal × List HttpRequest :=
  match headers config token with
  | Except.error e => (Except.error e, [])
  | Except.ok hs => request env config "get" resource (Option.some hs) Option.none params

/-- Python subscript of v with a string key: KeyError when the key is
missing from a dict, TypeError when v is not a dict. -/
def pySubscript (v : PyVal) (key : String) : Except PyError PyVal :=
  match v with
  | PyVal.dict kvs =>
    match List.lookup key kvs with
    | Option.some x => Except.ok x
    | Option.none => Except.error (PyError.keyError key)
  | _ => Except.error (PyError.typeError "value is not subscriptable by a string key")

/-- The request Client.login issues. -/
def loginRequest (cfg : Config) (username password : String) : HttpRequest :=
  builtRequest cfg "post" "login" Option.none
    (Option.some [("email", PyVal.str username), ("password", PyVal.str password)])
    Option.none

/-- Translation of Client.login: an unauthenticated POST to the login
resource with the stored credentials as body, then the auth_token field is
subscripted out of the JSON response. -/
def login (env : Env) (config : Option Config) (username password : String) :
    Except PyError PyVal × List HttpRequest :=
  let out := request env config "post" "login" Option.none
    (Option.some [("email", PyVal.str username), ("password", PyVal.str password)])
    Option.none
  (match out.1 with
   | Except.error e => Except.error e
   | Except.ok v => pySubscript v "auth_token",
   out.2)

/-- The instance fields of Client. The websession is passed to every
operation as its Env argument. -/
structure ClientState where
  config : Option Config
  token : PyVal
  username : String
  password : String
deriving Repr

/-- Translation of the Client constructor: config None, token None, the
credentials stored. -/
def init (email password : String) : ClientState :=
  { config := Option.none, token := PyVal.none, username := email, password := password }

/-- Translation of Client.async_init: assign the supplied configuration (the
Python parameter defaults to WHISTLE_CONST), then perform the login exchange
only when the token is None. The Except component is the success or the
propagated exception of the call. -/
def async_init (env : Env) (st : ClientState) (whistle_const : Config) :
    (Except PyError Unit × List HttpRequest) × ClientState :=
  let st1 := { st with config := Option.some whistle_const }
  if st1.token.isNone then
    match login env st1.config st1.username st1.password with
    | (Except.error e, reqs) => ((Except.error e, reqs), st1)
    | (Except.ok t, reqs) => ((Except.ok (), reqs), { st1 with token := t })
  else ((Except.ok (), []), st1)

/-- The request a resource accessor call sends. -/
def resourceRequest (cfg : Config) (token : PyVal) (resource : String)
    (params : Option (List (String × PyVal))) : HttpRequest :=
  builtRequest cfg "get" resource (Option.some (authHeaders cfg token)) Option.none params

/-- Translation of Client.get_pets. -/
def get_pets (env : Env) (st : ClientState) : Except PyError PyVal × List HttpRequest :=
  get_resource env st.config st.token "pets" Option.none

/-- Translation of Client.get_owners. -/
def get_owners (env : Env) (st : ClientState) (pet_id : String) :
    Except PyError PyVal × List HttpRequest :=
  get_resource env st.config st.token ("pets/" ++ pet_id ++ "/owners") Option.none

/-- Translation of Client.get_places. -/
def get_places (env : Env) (st : ClientState) : Except PyError PyVal × List HttpRequest :=
  get_resource env st.config st.token "places" Option.none

/-- Translation of Client.get_stats. -/
def get_stats (env : Env) (st : ClientState) (pet_id : String) :
    Except PyError PyVal × List HttpRequest :=
  get_resource env st.config st.token ("pets/" ++ pet_id ++ "/stats") Option.none

/-- Translation of Client.get_timeline. -/
def get_timeline (env : Env) (st : ClientState) (pet_id : String) :
    Except PyError PyVal × List HttpRequest :=
  get_resource env st.config st.token ("pets/" ++ pet_id ++ "/timelines/location") Option.none

/-- Date fields of a Python datetime; only the fields the date format
percent-Y percent-m percent-d reads. -/
structure PyDatetime where
  year : Nat
  month : Nat
  day : Nat
deriving Repr, DecidableEq

/-- Left-pad the decimal digits of a number with zeros to the given width. -/
def padNum (width n : Nat) : String :=
  String.mk (List.replicate (width - (toString n).length) '0') ++ toString n

/-- Python strftime with the format string DATEFORMAT_YYYYMMDD, namely
percent-Y dash percent-m dash percent-d. -/
def strftimeYYYYMMDD (d : PyDatetime) : String :=
  padNum 4 d.year ++ "-" ++ padNum 2 d.month ++ "-" ++ padNum 2 d.day

/-- Python datetime.datetime.fromtimestamp applied to 0: the epoch instant
rendered in local time, whose calendar date depends on the local UTC offset
in seconds. The dates are exact for offsets smaller than one day in absolute
value, which covers every real time zone. -/
def fromtimestamp0 (tzOffsetSeconds : Int) : PyDatetime :=
  if 0 ≤ tzOffsetSeconds then { year := 1970, month := 1, day := 1 }
  else { year := 1969, month := 12, day := 31 }

/-- Translation of Client.get_dailies. The runtime environment enters
through now (the value of datetime.datetime.now at the call) and through the
local UTC offset. Python datetimes are always truthy, so the truthiness
tests of the source become isSome tests. -/
def get_dailies (env : Env) (st : ClientState) (pet_id : String)
    (start_date end_date : Option PyDatetime) (now : PyDatetime)
    (tzOffsetSeconds : Int) : Except PyError PyVal × List HttpRequest :=
  let dates : Option PyDatetime × Option PyDatetime :=
    if start_date.isSome && !end_date.isSome then (start_date, Option.some now)
    else if end_date.isSome && !start_date.isSome then
      (Option.some (fromtimestamp0 tzOffsetSeconds), end_date)
    else (start_date, end_date)
  let sd : PyVal := match dates.1 with
    | Option.some d => PyVal.str (strftimeYYYYMMDD d)
    | Option.none => PyVal.none
  let ed : PyVal := match dates.2 with
    | Option.some d => PyVal.str (strftimeYYYYMMDD d)
    | Option.none => PyVal.none
  get_resource env st.config st.token ("pets/" ++ pet_id ++ "/dailies")
    (Option.some [("start_date", sd), ("end_date", ed)])

/-- Translation of Client.get_dailies_day. -/
def get_dailies_day (env : Env) (st : ClientState) (pet_id day_id : String) :
    Except PyError PyVal × List HttpRequest :=
  get_resource env st.config st.token ("pets/" ++ pet_id ++ "/dailies/" ++ day_id) Option.none

/-- Translation of Client.get_achievements. -/
def get_achievements (env : Env) (st : ClientState) (pet_id : String) :
    Except PyError PyVal × List HttpRequest :=
  get_resource env st.config st.token ("pets/" ++ pet_id ++ "/achievements") Option.none

/-- A session answering every request with status 200 and an empty JSON
array. -/
def envAny : Env :=
  fun _ => { status := 200, reason := "OK", rawBody := "[]", json := Option.some (PyVal.list []) }

/-- A session answering every request with a surfaced 304 and a JSON body. -/
def env304 : Env :=
  fun _ => { status := 304, reason := "Not Modified", rawBody := "[1]",
             json := Option.some (PyVal.list [PyVal.int 1]) }

/-- A session answering every request with a 404 whose body and reason
differ. -/
def env404 : Env :=
  fun _ => { status := 404, reason := "Not Found", rawBody := "missing pet", json := Option.none }

/-- A session answering every request with a 401. -/
def env401 : Env :=
  fun _ => { status := 401, reason := "Unauthorized", rawBody := "", json := Option.none }

/-- A session answering every request with a login payload carrying an
auth_token field. -/
def envLogin : Env :=
  fun _ => { status := 200, reason := "OK", rawBody := "",
             json := Option.some (PyVal.dict [("auth_token", PyVal.str "tok123")]) }

/-- A client state as left by a successful async_init. -/
def stReady : ClientState :=
  { config := Option.some WHISTLE_CONST, token := PyVal.str "tok123",
    username := "a@b.com", password := "pw" }

/-- Helper: a PyVal whose isNone test is true is the value None. -/
theorem PyVal.isNone_true {v : PyVal} (h : v.isNone = true) : v = PyVal.none := by
  cases v <;> first | rfl | simp [PyVal.isNone] at h

/-- Helper: result of the request primitive on a sub-400 status with a JSON
body. -/
theorem request_ok_of (env : Env) (cfg : Config) (m r : String)
    (hs : Option (List (String × String))) (data : Option (List (String × PyVal)))
    (ps : Option (List (String × PyVal))) (v : PyVal)
    (h : (env (builtRequest cfg m r hs data ps)).status < 400)
    (hj : (env (builtRequest cfg m r hs data ps)).json = Option.some v) :
    (request env (Option.some cfg) m r hs data ps).1 = Except.ok v := by
  simp only [request]
  rw [if_neg (Nat.not_le.mpr h), hj]

/-- Helper: result of the request primitive on a status of 400 or above. -/
theorem request_err_of (env : Env) (cfg : Config) (m r : String)
    (hs : Option (List (String × String))) (data : Option (List (String × PyVal)))
    (ps : Option (List (String × PyVal)))
    (h : 400 ≤ (env (builtRequest cfg m r hs data ps)).status) :
    (request env (Option.some cfg) m r hs data ps).1 =
      Except.error (PyError.clientResponseError
        (env (builtRequest cfg m r hs data ps)).status
        (env (builtRequest cfg m r hs data ps)).reason) := by
  simp only [request]
  rw [if_pos h]

/-- C7: for every configuration and every resource string, the URL of the
request issued through the resource accessor is exactly the composition
scheme colon-slash-slash host slash apiPath slash resource of the configured
values and the resource, with no other transformation. -/
theorem url_composition (env : Env) (cfg : Config) (token : PyVal)
    (resource : String) (params : Option (List (String × PyVal))) :
    (get_resource env (Option.some cfg) token resource params).2 =
      [resourceRequest cfg token resource params] ∧
    (resourceRequest cfg token resource params).url =
      cfg.proto ++ "://" ++ cfg.remote_host ++ "/" ++ cfg.endpoint ++ "/" ++ resource :=
  ⟨rfl, rfl⟩

/-- C8: every call through the resource accessor sends exactly the fixed
vendor header set together with the bearer Authorization header built from
the token, and the login call sends no headers at all. -/
theorem fixed_header_set (env : Env) (cfg : Config) (token : PyVal)
    (resource : String) (params : Option (List (String × PyVal)))
    (u p : String) :
    (get_resource env (Option.some cfg) token resource params).2 =
      [resourceRequest cfg token resource params] ∧
    (resourceRequest cfg token resource params).headers =
      [("Host", cfg.remote_host),
       ("Content-Type", "application/json"),
       ("Connection", "keep-alive"),
       ("Accept", "application/vnd.whistle.com.v4+json"),
       ("Accept-Language", "en-us"),
       ("Accept-Encoding", "br, gzip, deflate"),
       ("User-Agent", "Winston/2.5.3 (iPhone; iOS 12.0.1; Build:1276; Scale/2.0)"),
       ("Authorization", "Bearer " ++ pyStr token)] ∧
    (login env (Option.some cfg) u p).2 = [loginRequest cfg u p] ∧
    (loginRequest cfg u p).headers = [] :=
  ⟨rfl, rfl, rfl, rfl⟩

/-- C1 as stated is false at a concrete input: get_pets called on a freshly
constructed client fails with the TypeError raised by subscripting the None
config, which is not the distinct not-initialized error the claim requires
(and no request is issued). -/
theorem preinit_counterexample :
    (get_pets envAny (init "a@b.com" "pw")).1 =
      Except.error (PyError.typeError noneSubscriptMsg) ∧
    PyError.typeError noneSubscriptMsg ≠ PyError.notInitialized ∧
    (get_pets envAny (init "a@b.com" "pw")).2 = [] :=
  ⟨rfl, by decide, rfl⟩

/-- C1 amended: every resource-fetching method invoked on a freshly
constructed, uninitialized client fails before issuing any HTTP request,
with the TypeError raised by subscripting the None config, and not with a
distinct not-initialized error. -/
theorem preinit_resource_methods (env : Env) (email pw pet_id day_id : String)
    (sd ed : Option PyDatetime) (now : PyDatetime) (tz : Int) :
    (get_pets env (init email pw)).1 = Except.error (PyError.typeError noneSubscriptMsg) ∧
    (get_pets env (init email pw)).2 = [] ∧
    (get_owners env (init email pw) pet_id).1 =
      Except.error (PyError.typeError noneSubscriptMsg) ∧
    (get_owners env (init email pw) pet_id).2 = [] ∧
    (get_places env (init email pw)).1 = Except.error (PyError.typeError noneSubscriptMsg) ∧
    (get_places env (init email pw)).2 = [] ∧
    (get_stats env (init email pw) pet_id).1 =
      Except.error (PyError.typeError noneSubscriptMsg) ∧
    (get_stats env (init email pw) pet_id).2 = [] ∧
    (get_timeline env (init email pw) pet_id).1 =
      Except.error (PyError.typeError noneSubscriptMsg) ∧
    (get_timeline env (init email pw) pet_id).2 = [] ∧
    (get_dailies env (init email pw) pet_id sd ed now tz).1 =
      Except.error (PyError.typeError noneSubscriptMsg) ∧
    (get_dailies env (init email pw) pet_id sd ed now tz).2 = [] ∧
    (get_dailies_day env (init email pw) pet_id day_id).1 =
      Except.error (PyError.typeError noneSubscriptMsg) ∧
    (get_dailies_day env (init email pw) pet_id day_id).2 = [] ∧
    (get_achievements env (init email pw) pet_id).1 =
      Except.error (PyError.typeError noneSubscriptMsg) ∧
    (get_achievements env (init email pw) pet_id).2 = [] ∧
    PyError.typeError noneSubscriptMsg ≠ PyError.notInitialized :=
  ⟨rfl, rfl, rfl, rfl, rfl, rfl, rfl, rfl, rfl, rfl, rfl, rfl, rfl, rfl, rfl, rfl, by decide⟩

/-- C2 amended: the request primitive fails with a ClientResponseError
carrying the status code and the reason phrase exactly when the surfaced
status is at least 400; any surfaced status below 400, a 3xx included, is
treated as success, and the JSON parse of the body is then returned. -/
theorem request_http_semantics (env : Env) (cfg : Config) (m r : String)
    (hs : Option (List (String × String))) (data : Option (List (String × PyVal)))
    (ps : Option (List (String × PyVal))) :
    (request env (Option.some cfg) m r hs data ps).2 = [builtRequest cfg m r hs data ps] ∧
    (400 ≤ (env (builtRequest cfg m r hs data ps)).status →
      (request env (Option.some cfg) m r hs data ps).1 =
        Except.error (PyError.clientResponseError
          (env (builtRequest cfg m r hs data ps)).status
          (env (builtRequest cfg m r hs data ps)).reason)) ∧
    (∀ v, (env (builtRequest cfg m r hs data ps)).status < 400 →
      (env (builtRequest cfg m r hs data ps)).json = Option.some v →
      (request env (Option.some cfg) m r hs data ps).1 = Except.ok v) := by
  refine ⟨rfl, ?_, ?_⟩
  · intro h
    simp only [request]
    rw [if_pos h]
  · intro v h hj
    simp only [request]
    rw [if_neg (Nat.not_le.mpr h), hj]

/-- Witness for request_http_semantics: a 404 surfaces as a
ClientResponseError with its status and reason, and a 200 with a JSON body
returns the parsed body. -/
theorem request_http_semantics_witness :
    (request env404 (Option.some WHISTLE_CONST) "get" "pets"
        Option.none Option.none Option.none).1 =
      Except.error (PyError.clientResponseError 404 "Not Found") ∧
    (request envAny (Option.some WHISTLE_CONST) "get" "pets"
        Option.none Option.none Option.none).1 =
      Except.ok (PyVal.list []) :=
  ⟨(request_http_semantics env404 WHISTLE_CONST "get" "pets"
      Option.none Option.none Option.none).2.1 (by decide),
   (request_http_semantics envAny WHISTLE_CONST "get" "pets"
      Option.none Option.none Option.none).2.2 (PyVal.list []) (by decide) rfl⟩

/-- C2 as stated is false at a concrete input: a surfaced 304 response is
not a 2xx status, yet the call succeeds and returns the parsed body instead
of failing; moreover a 404 failure carries the reason phrase of the
response, not its body text. -/
theorem request_non2xx_counterexample :
    (request env304 (Option.some WHISTLE_CONST) "get" "pets"
        Option.none Option.none Option.none).1 =
      Except.ok (PyVal.list [PyVal.int 1]) ∧
    (env304 (builtRequest WHISTLE_CONST "get" "pets"
        Option.none Option.none Option.none)).status = 304 ∧
    ¬ (200 ≤ 304 ∧ 304 < 300) ∧
    (request env404 (Option.some WHISTLE_CONST) "get" "pets"
        Option.none Option.none Option.none).1 =
      Except.error (PyError.clientResponseError 404 "Not Found") ∧
    (env404 (builtRequest WHISTLE_CONST "get" "pets"
        Option.none Option.none Option.none)).rawBody = "missing pet" ∧
    "Not Found" ≠ "missing pet" :=
  ⟨rfl, rfl, by decide, rfl, rfl, by decide⟩

/-- C4: the request primitive excludes exactly the None-valued query
parameters, passes every other pair through unchanged, and normalizes an
absent headers or params argument to the empty mapping. -/
theorem request_param_filtering (env : Env) (cfg : Config) (m r : String)
    (hs : Option (List (String × String))) (data : Option (List (String × PyVal)))
    (ps : List (String × PyVal)) (kv : String × PyVal) :
    (request env (Option.some cfg) m r hs data (Option.some ps)).2 =
      [builtRequest cfg m r hs data (Option.some ps)] ∧
    (kv ∈ (builtRequest cfg m r hs data (Option.some ps)).params ↔
      kv ∈ ps ∧ kv.2.isNone = false) ∧
    (request env (Option.some cfg) m r Option.none data Option.none).2 =
      [builtRequest cfg m r Option.none data Option.none] ∧
    (builtRequest cfg m r Option.none data Option.none).headers = [] ∧
    (builtRequest cfg m r Option.none data Option.none).params = [] := by
  refine ⟨rfl, ?_, rfl, rfl, rfl⟩
  simp [builtRequest, List.mem_filter]

/-- C10: the query filter drops a key only when its value is exactly None;
in particular every retained pair reaches the outgoing request unchanged,
and the falsy values empty string, zero and False do not count as None. -/
theorem filter_drops_only_none (env : Env) (cfg : Config) (m r : String)
    (hs : Option (List (String × String))) (data : Option (List (String × PyVal)))
    (ps : List (String × PyVal)) (kv : String × PyVal)
    (hmem : kv ∈ ps) (hv : kv.2.isNone = false) :
    kv ∈ (builtRequest cfg m r hs data (Option.some ps)).params ∧
    (request env (Option.some cfg) m r hs data (Option.some ps)).2 =
      [builtRequest cfg m r hs data (Option.some ps)] ∧
    (PyVal.str "").isNone = false ∧
    (PyVal.int 0).isNone = false ∧
    (PyVal.bool false).isNone = false := by
  refine ⟨?_, rfl, rfl, rfl, rfl⟩
  simp [builtRequest, List.mem_filter, hmem, hv]

/-- Witness for filter_drops_only_none: an empty-string-valued parameter
survives the filter next to a dropped None-valued one. -/
theorem filter_drops_only_none_witness :
    ("empty", PyVal.str "") ∈
      (builtRequest WHISTLE_CONST "get" "pets" Option.none Option.none
        (Option.some [("empty", PyVal.str ""), ("n", PyVal.none)])).params :=
  (filter_drops_only_none envAny WHISTLE_CONST "get" "pets" Option.none Option.none
    [("empty", PyVal.str ""), ("n", PyVal.none)] ("empty", PyVal.str "")
    (by simp) rfl).1

/-- C5: login POSTs the constructor credentials as the body of the login
resource with no headers at all (hence no bearer Authorization), returns the
auth_token field of the JSON response, raises KeyError when the field is
absent from the response dict, and propagates a failing request. -/
theorem login_spec (env : Env) (cfg : Config) (u p : String) :
    (login env (Option.some cfg) u p).2 = [loginRequest cfg u p] ∧
    (loginRequest cfg u p).method = "post" ∧
    (loginRequest cfg u p).url = url cfg "login" ∧
    (loginRequest cfg u p).data =
      Option.some [("email", PyVal.str u), ("password", PyVal.str p)] ∧
    (loginRequest cfg u p).headers = [] ∧
    (∀ kvs t, (env (loginRequest cfg u p)).status < 400 →
      (env (loginRequest cfg u p)).json = Option.some (PyVal.dict kvs) →
      List.lookup "auth_token" kvs = Option.some t →
      (login env (Option.some cfg) u p).1 = Except.ok t) ∧
    (∀ kvs, (env (loginRequest cfg u p)).status < 400 →
      (env (loginRequest cfg u p)).json = Option.some (PyVal.dict kvs) →
      List.lookup "auth_token" kvs = Option.none →
      (login env (Option.some cfg) u p).1 = Except.error (PyError.keyError "auth_token")) ∧
    (400 ≤ (env (loginRequest cfg u p)).status →
      (login env (Option.some cfg) u p).1 =
        Except.error (PyError.clientResponseError
          (env (loginRequest cfg u p)).status (env (loginRequest cfg u p)).reason)) := by
  refine ⟨rfl, rfl, rfl, rfl, rfl, ?_, ?_, ?_⟩
  · intro kvs t h hj hfind
    have hq := request_ok_of env cfg "post" "login" Option.none
      (Option.some [("email", PyVal.str u), ("password", PyVal.str p)]) Option.none
      (PyVal.dict kvs) h hj
    simp [login, hq, pySubscript, hfind]
  · intro kvs h hj hfind
    have hq := request_ok_of env cfg "post" "login" Option.none
      (Option.some [("email", PyVal.str u), ("password", PyVal.str p)]) Option.none
      (PyVal.dict kvs) h hj
    simp [login, hq, pySubscript, hfind]
  · intro h
    have hq := request_err_of env cfg "post" "login" Option.none
      (Option.some [("email", PyVal.str u), ("password", PyVal.str p)]) Option.none h
    simp only [login, hq]
    rfl

/-- Witness for login_spec: against a session answering with an auth_token
field, login returns that token, and against a session answering 401 it
propagates the ClientResponseError. -/
theorem login_spec_witness :
    (login envLogin (Option.some WHISTLE_CONST) "a@b.com" "pw").1 =
      Except.ok (PyVal.str "tok123") ∧
    (login env401 (Option.some WHISTLE_CONST) "a@b.com" "pw").1 =
      Except.error (PyError.clientResponseError 401 "Unauthorized") :=
  ⟨(login_spec envLogin WHISTLE_CONST "a@b.com" "pw").2.2.2.2.2.1
      [("auth_token", PyVal.str "tok123")] (PyVal.str "tok123")
      (by decide) rfl rfl,
   (login_spec env401 WHISTLE_CONST "a@b.com" "pw").2.2.2.2.2.2.2
      (by decide)⟩

/-- C6: once the token is non-None, async_init issues no request, reports
success and leaves the token unchanged; every resource accessor call
carries that same token inside its Authorization header; and async_init
performs the login exchange exactly when no token is cached. -/
theorem token_reuse_and_stability (env : Env) (st : ClientState) (cfg : Config)
    (h : st.token.isNone = false) :
    (async_init env st cfg).2.token = st.token ∧
    (async_init env st cfg).1.2 = [] ∧
    (async_init env st cfg).1.1 = Except.ok () ∧
    (∀ resource params,
      (get_resource env (Option.some cfg) st.token resource params).2 =
        [resourceRequest cfg st.token resource params] ∧
      ("Authorization", "Bearer " ++ pyStr st.token) ∈
        (resourceRequest cfg st.token resource params).headers) ∧
    (∀ st2 : ClientState, st2.token.isNone = true →
      (async_init env st2 cfg).1.2 = [loginRequest cfg st2.username st2.password]) := by
  refine ⟨by simp [async_init, h], by simp [async_init, h], by simp [async_init, h], ?_, ?_⟩
  · intro resource params
    exact ⟨rfl, by simp [resourceRequest, builtRequest, authHeaders]⟩
  · intro st2 h2
    have hreqs : (login env (Option.some cfg) st2.username st2.password).2 =
        [loginRequest cfg st2.username st2.password] := rfl
    rcases hlv : login env (Option.some cfg) st2.username st2.password with ⟨res, reqs⟩
    have hr : reqs = [loginRequest cfg st2.username st2.password] := by
      rw [← hreqs, hlv]
    cases res <;> simp [async_init, h2, hlv, hr]

/-- Witness for token_reuse_and_stability: on a state already holding the
token tok123, async_init leaves the token in place, issues no request, and
the pets request carries that bearer token. -/
theorem token_reuse_and_stability_witness :
    (async_init envAny stReady WHISTLE_CONST).2.token = PyVal.str "tok123" ∧
    (async_init envAny stReady WHISTLE_CONST).1.2 = [] ∧
    ("Authorization", "Bearer tok123") ∈
      (resourceRequest WHISTLE_CONST (PyVal.str "tok123") "pets" Option.none).headers :=
  ⟨(token_reuse_and_stability envAny stReady WHISTLE_CONST rfl).1,
   (token_reuse_and_stability envAny stReady WHISTLE_CONST rfl).2.1,
   ((token_reuse_and_stability envAny stReady WHISTLE_CONST rfl).2.2.2.1 "pets" Option.none).2⟩

/-- C9: async_init stores the supplied configuration before attempting the
login, so when the login exchange fails, the config is left set to the
supplied configuration while the token stays None, and the failure
propagates; the login request itself already uses the new configuration. -/
theorem async_init_failure_state (env : Env) (st : ClientState) (cfg : Config)
    (e : PyError) (h : st.token.isNone = true)
    (hl : (login env (Option.some cfg) st.username st.password).1 = Except.error e) :
    (async_init env st cfg).2.config = Option.some cfg ∧
    (async_init env st cfg).2.token = PyVal.none ∧
    (async_init env st cfg).1.1 = Except.error e ∧
    (async_init env st cfg).1.2 = [loginRequest cfg st.username st.password] := by
  have ht := PyVal.isNone_true h
  have hreqs : (login env (Option.some cfg) st.username st.password).2 =
      [loginRequest cfg st.username st.password] := rfl
  rcases hlv : login env (Option.some cfg) st.username st.password with ⟨res, reqs⟩
  have hr : reqs = [loginRequest cfg st.username st.password] := by
    rw [← hreqs, hlv]
  have he : res = Except.error e := by
    rw [← hl, hlv]
  subst he hr
  simp [async_init, PyVal.isNone, h, hlv, ht]

/-- Witness for async_init_failure_state: initializing a fresh client
against a session answering 401 leaves the config set, the token None, and
surfaces the ClientResponseError. -/
theorem async_init_failure_state_witness :
    (async_init env401 (init "a@b.com" "pw") WHISTLE_CONST).2.config =
      Option.some WHISTLE_CONST ∧
    (async_init env401 (init "a@b.com" "pw") WHISTLE_CONST).2.token = PyVal.none ∧
    (async_init env401 (init "a@b.com" "pw") WHISTLE_CONST).1.1 =
      Except.error (PyError.clientResponseError 401 "Unauthorized") :=
  ⟨(async_init_failure_state env401 (init "a@b.com" "pw") WHISTLE_CONST
      (PyError.clientResponseError 401 "Unauthorized") rfl rfl).1,
   (async_init_failure_state env401 (init "a@b.com" "pw") WHISTLE_CONST
      (PyError.clientResponseError 401 "Unauthorized") rfl rfl).2.1,
   (async_init_failure_state env401 (init "a@b.com" "pw") WHISTLE_CONST
      (PyError.clientResponseError 401 "Unauthorized") rfl rfl).2.2.1⟩

/-- C3 promises, as does the docstring of get_dailies, that a missing start
date defaults to the epoch date 1970-01-01, but the code renders the epoch
instant in local time: with a local UTC offset of minus five hours and only
an end date supplied, the start_date parameter sent is 1969-12-31; the
promised 1970-01-01 only appears for non-negative offsets. -/
theorem get_dailies_epoch_local_time :
    (get_dailies envAny stReady "1" Option.none
        (Option.some { year := 1980, month := 5, day := 5 })
        { year := 2020, month := 1, day := 2 } (-18000)).2 =
      [resourceRequest WHISTLE_CONST (PyVal.str "tok123") "pets/1/dailies"
        (Option.some [("start_date", PyVal.str "1969-12-31"),
                      ("end_date", PyVal.str "1980-05-05")])] ∧
    List.lookup "start_date"
      (resourceRequest WHISTLE_CONST (PyVal.str "tok123") "pets/1/dailies"
        (Option.some [("start_date", PyVal.str "1969-12-31"),
                      ("end_date", PyVal.str "1980-05-05")])).params =
      Option.some (PyVal.str "1969-12-31") ∧
    PyVal.str "1969-12-31" ≠ PyVal.str "1970-01-01" ∧
    strftimeYYYYMMDD (fromtimestamp0 0) = "1970-01-01" :=
  ⟨rfl, rfl, by simp, rfl⟩

end Pywhistle
